import Mathlib

/-!
Verification of the per-frame stereo presentation pipeline of
`src/Minimal/main.cpp` (CSE190 HW2).

The embedding models the state and per-frame logic of `ExampleApp` /
`RiftApp` / `Scene`:

* GLM vectors and matrices are embedded as rational-valued functions
  (`Vec3`, `Vec4`, `Mat3`, `Mat4`); GLM is an external math library, so
  `glm::inverse` is passed in as an opaque function parameter `inv`.
* The three `std::deque` ring buffers (`lringBuffer`, `rringBuffer`,
  `cringBuffer`) are embedded as Lean lists; each `pop_front` / `push_back`
  pair is `recordPose`, and the read `buffer[60 - lagNum - 1]` is
  `retrieveLagged`.
* Controller input processing in `ExampleApp::renderScene` (lines
  1112-1234) is embedded step by step, one small function per guarded
  block, composed in source order by `processInput`.
* The render-delay block (lines 1248-1284) is `delayStep`, the whole of
  `ExampleApp::renderScene` is `renderScene`, and the per-frame eye loop
  of `RiftApp::draw` (lines 652-703) is `drawFrame`.
* The `drawView` selection at the top of `Scene::render` (lines 909-956)
  is `resolveDrawView`.

Floats are modelled as rationals: the program only adds, divides by
constants and compares, so the control flow is arithmetic-exact.
-/

namespace HW2

/-- GLM `vec3` as a rational-valued vector. -/
abbrev Vec3 := Fin 3 → ℚ

/-- GLM `vec4` as a rational-valued vector. -/
abbrev Vec4 := Fin 4 → ℚ

/-- GLM `mat3`, column major: `m c r` is entry `m[c][r]`. -/
abbrev Mat3 := Fin 3 → Fin 3 → ℚ

/-- GLM `mat4`, column major: `m c r` is entry `m[c][r]`. -/
abbrev Mat4 := Fin 4 → Fin 4 → ℚ

/-- The identity matrix `glm::mat4(1.0f)`. -/
def mat4Id : Mat4 := fun c r => if c = r then 1 else 0

/-- The vector `glm::vec3(1.0f)`. -/
def vec3One : Vec3 := fun _ => 1

/-- GLM `mat3(m)`: the upper-left 3x3 block of a `mat4`. -/
def mat3OfMat4 (m : Mat4) : Mat3 := fun c r => m c.castSucc r.castSucc

/-- GLM `mat4(m)` for a `mat3` argument: upper-left block is `m`,
fourth row and column are those of the identity. -/
def mat4OfMat3 (m : Mat3) : Mat4 := fun c r =>
  if hc : (c : ℕ) < 3 then
    (if hr : (r : ℕ) < 3 then m ⟨c, hc⟩ ⟨r, hr⟩ else 0)
  else (if (r : ℕ) = 3 then 1 else 0)

/-- GLM `m[3]`: the fourth (translation) column of a `mat4`. -/
def col3 (m : Mat4) : Vec4 := m 3

/-- GLM `m[3] = v`: replace the fourth column of a `mat4`. -/
def setCol3 (m : Mat4) (v : Vec4) : Mat4 := fun c r => if c = 3 then v r else m c r

/-- One `pop_front` / `push_back` cycle on a ring buffer
(`ExampleApp::renderScene` lines 1078-1086 and 1108-1110). -/
def recordPose {α : Type} (buf : List α) (x : α) : List α := buf.tail ++ [x]

/-- The read `buffer[60 - lagNum - 1]` used at lines 1239, 1243 and 1246
of `ExampleApp::renderScene` (capacity 60, `lagNum` frames of staleness). -/
def retrieveLagged {α : Type} [Inhabited α] (buf : List α) (lagNum : ℤ) : α :=
  buf.getD (60 - lagNum - 1).toNat default

/-- One `ovrInputState` snapshot, restricted to the fields the program
reads: button bits, thumbstick x axes, index and hand trigger values. -/
structure InputState where
  buttonA : Bool
  buttonX : Bool
  buttonB : Bool
  buttonLThumb : Bool
  buttonRThumb : Bool
  thumbLX : ℚ
  thumbRX : ℚ
  indexTrigger0 : ℚ
  indexTrigger1 : ℚ
  handTrigger0 : ℚ
  handTrigger1 : ℚ

/-- The controller-driven members of `ExampleApp` (and the IOD members of
`RiftApp`) mutated by the input block of `renderScene`. -/
structure CtrlState where
  x_pressed : ℤ
  x_hasPressed : Bool
  cubeScale : ℚ
  b_pressed : ℤ
  b_hasPressed : Bool
  rotation : Mat3
  position : Vec4
  iodOffset : ℚ
  iod : ℚ
  hmdToEyePose0x : ℚ
  hmdToEyePose1x : ℚ
  leftIndexP : Bool
  rightIndexP : Bool
  leftThumbP : Bool
  rightThumbP : Bool
  lagNum : ℤ
  delayNum : ℤ

/-- `RiftApp::setIOD` (lines 543-555): clamp `iod + iodOffset` to
`[-0.1, 0.3]` and write the two per-eye x offsets. -/
def setIOD (c : CtrlState) (iodOffset : ℚ) : CtrlState :=
  let newIOD := c.iod + iodOffset
  let newIOD := if newIOD < -(1/10) then -(1/10) else newIOD
  let newIOD := if newIOD > 3/10 then 3/10 else newIOD
  { c with hmdToEyePose0x := -newIOD / 2, hmdToEyePose1x := newIOD / 2 }

/-- Lines 1114-1121: X press edge cycles `x_pressed` modulo 3. -/
def stepX (c : CtrlState) (i : InputState) : CtrlState :=
  if i.buttonX = true ∧ c.x_hasPressed = false then
    { c with x_pressed := (c.x_pressed + 1) % 3, x_hasPressed := true }
  else c

/-- Lines 1123-1125: X release rearms the edge detector. -/
def stepXRel (c : CtrlState) (i : InputState) : CtrlState :=
  if i.buttonX = false ∧ c.x_hasPressed = true then
    { c with x_hasPressed := false }
  else c

/-- Lines 1127-1138: accumulate `cubeScale` from the left thumbstick x
axis and clamp to `[-1, 1]`. -/
def stepCubeScale (c : CtrlState) (i : InputState) : CtrlState :=
  if i.thumbLX ≠ 0 then
    let s := c.cubeScale + i.thumbLX / 10
    let s := if s > 1 then 1 else s
    let s := if s < -1 then -1 else s
    { c with cubeScale := s }
  else c

/-- Lines 1140-1142: left thumbstick click resets `cubeScale`. -/
def stepLThumb (c : CtrlState) (i : InputState) : CtrlState :=
  if i.buttonLThumb = true then { c with cubeScale := 0 } else c

/-- Lines 1144-1155: B press edge cycles `b_pressed` modulo 4 and captures
`rotation = mat3(inverse(headPose))`, `position = inverse(headPose)[3]`.
`inv` stands for the external `glm::inverse`. -/
def stepB (inv : Mat4 → Mat4) (headPose : Mat4) (c : CtrlState) (i : InputState) : CtrlState :=
  if i.buttonB = true ∧ c.b_hasPressed = false then
    { c with b_pressed := (c.b_pressed + 1) % 4,
             rotation := mat3OfMat4 (inv headPose),
             position := col3 (inv headPose),
             b_hasPressed := true }
  else c

/-- Lines 1157-1159: B release rearms the edge detector. -/
def stepBRel (c : CtrlState) (i : InputState) : CtrlState :=
  if i.buttonB = false ∧ c.b_hasPressed = true then
    { c with b_hasPressed := false }
  else c

/-- Lines 1161-1168: accumulate `iodOffset` from the right thumbstick x
axis (no clamp on the accumulator) and apply it through `setIOD`. -/
def stepIodOffset (c : CtrlState) (i : InputState) : CtrlState :=
  if i.thumbRX ≠ 0 then
    let c := { c with iodOffset := c.iodOffset + i.thumbRX / 100 }
    setIOD c c.iodOffset
  else c

/-- Lines 1170-1173: right thumbstick click resets `iodOffset` to 0 and
reapplies it. -/
def stepIodReset (c : CtrlState) (i : InputState) : CtrlState :=
  if i.buttonRThumb = true then setIOD { c with iodOffset := 0 } 0 else c

/-- Lines 1175-1182: left index trigger edge decrements `lagNum`
(guarded by `lagNum > 0`) modulo 60. -/
def stepLagDec (c : CtrlState) (i : InputState) : CtrlState :=
  if i.indexTrigger0 > 1/2 then
    (if c.leftIndexP = false ∧ c.lagNum > 0 then
      { c with lagNum := (c.lagNum - 1) % 60, leftIndexP := true }
    else c)
  else c

/-- Lines 1184-1186: left index trigger release rearms the edge. -/
def stepLagDecRel (c : CtrlState) (i : InputState) : CtrlState :=
  if i.indexTrigger0 ≤ 1/2 ∧ c.leftIndexP = true then
    { c with leftIndexP := false }
  else c

/-- Lines 1188-1195: right index trigger edge increments `lagNum`
modulo 60. -/
def stepLagInc (c : CtrlState) (i : InputState) : CtrlState :=
  if i.indexTrigger1 > 1/2 then
    (if c.rightIndexP = false then
      { c with lagNum := (c.lagNum + 1) % 60, rightIndexP := true }
    else c)
  else c

/-- Lines 1197-1199: right index trigger release rearms the edge. -/
def stepLagIncRel (c : CtrlState) (i : InputState) : CtrlState :=
  if i.indexTrigger1 ≤ 1/2 ∧ c.rightIndexP = true then
    { c with rightIndexP := false }
  else c

/-- Lines 1209-1211: `if (delayNum < 0) delayNum = 0;`. -/
def clampDelayLow (c : CtrlState) : CtrlState :=
  if c.delayNum < 0 then { c with delayNum := 0 } else c

/-- Lines 1226-1228: `if (delayNum >= 10) delayNum = 10;`. -/
def clampDelayHigh (c : CtrlState) : CtrlState :=
  if c.delayNum ≥ 10 then { c with delayNum := 10 } else c

/-- Lines 1201-1212: left hand trigger edge decrements `delayNum`
(guarded by `delayNum > 0`), then clamps negatives to 0. -/
def stepDelayDec (c : CtrlState) (i : InputState) : CtrlState :=
  if i.handTrigger0 > 1/2 then
    clampDelayLow (if c.leftThumbP = false ∧ c.delayNum > 0 then
        { c with delayNum := c.delayNum - 1, leftThumbP := true }
      else c)
  else c

/-- Lines 1214-1216: left hand trigger release rearms the edge. -/
def stepDelayDecRel (c : CtrlState) (i : InputState) : CtrlState :=
  if i.handTrigger0 ≤ 1/2 ∧ c.leftThumbP = true then
    { c with leftThumbP := false }
  else c

/-- Lines 1218-1229: right hand trigger edge increments `delayNum`, then
clamps values at or above 10 down to 10. -/
def stepDelayInc (c : CtrlState) (i : InputState) : CtrlState :=
  if i.handTrigger1 > 1/2 then
    clampDelayHigh (if c.rightThumbP = false then
        { c with delayNum := c.delayNum + 1, rightThumbP := true }
      else c)
  else c

/-- Lines 1231-1233: right hand trigger release rearms the edge. -/
def stepDelayIncRel (c : CtrlState) (i : InputState) : CtrlState :=
  if i.handTrigger1 ≤ 1/2 ∧ c.rightThumbP = true then
    { c with rightThumbP := false }
  else c

/-- The whole input block of `ExampleApp::renderScene` (lines 1112-1234),
in source order. -/
def processInput (inv : Mat4 → Mat4) (headPose : Mat4) (c : CtrlState) (i : InputState) :
    CtrlState :=
  let c := stepX c i
  let c := stepXRel c i
  let c := stepCubeScale c i
  let c := stepLThumb c i
  let c := stepB inv headPose c i
  let c := stepBRel c i
  let c := stepIodOffset c i
  let c := stepIodReset c i
  let c := stepLagDec c i
  let c := stepLagDecRel c i
  let c := stepLagInc c i
  let c := stepLagIncRel c i
  let c := stepDelayDec c i
  let c := stepDelayDecRel c i
  let c := stepDelayInc c i
  stepDelayIncRel c i

/-- The render-delay members of `ExampleApp`: the two per-eye frame
counters and the captured / shared frames. -/
structure DelayState where
  ldelayRender : ℤ
  rdelayRender : ℤ
  leftCurFrame : Mat4
  rightCurFrame : Mat4
  renderFrame : Mat4

/-- The render-delay block of `ExampleApp::renderScene` (lines 1248-1284):
capture the current pose when the eye's counter is 0, replay the captured
pose while the counter is below `delayNum`, and reset counters that have
reached `delayNum`. -/
def delayStep (d : DelayState) (delayNum : ℤ) (headPose : Mat4) (whichEye : ℤ) : DelayState :=
  let d := if d.ldelayRender = 0 ∧ whichEye = 0 then
      { d with leftCurFrame := headPose, renderFrame := headPose }
    else d
  let d := if d.rdelayRender = 0 ∧ whichEye = 1 then
      { d with rightCurFrame := headPose, renderFrame := headPose }
    else d
  let d := if d.ldelayRender < delayNum ∧ whichEye = 0 then
      { d with renderFrame := d.leftCurFrame, ldelayRender := d.ldelayRender + 1 }
    else d
  let d := if d.rdelayRender < delayNum ∧ whichEye = 1 then
      { d with renderFrame := d.rightCurFrame, rdelayRender := d.rdelayRender + 1 }
    else d
  let d := if d.ldelayRender ≥ delayNum then { d with ldelayRender := 0 } else d
  if d.rdelayRender ≥ delayNum then { d with rdelayRender := 0 } else d

/-- The whole mutable state of `ExampleApp` (with the inherited `RiftApp`
members `a_pressed` / `a_hasPressed` and the IOD fields inside `ctrl`). -/
structure AppState where
  lringBuffer : List Mat4
  rringBuffer : List Mat4
  cringBuffer : List Vec3
  a_pressed : ℤ
  a_hasPressed : Bool
  ctrl : CtrlState
  delay : DelayState

/-- The argument list of the `scene->render(...)` call at line 1293 of
`ExampleApp::renderScene` (the view argument is `inverse(outputFrame)`). -/
structure RenderCall where
  projection : Mat4
  view : Mat4
  whichEye : ℤ
  x_pressed : ℤ
  cubeScale : ℚ
  b_pressed : ℤ
  rotation : Mat3
  position : Vec4
  right : Vec3

/-- `ExampleApp::renderScene` (lines 1076-1294). Parameters beyond the
member state: `inv` is the external `glm::inverse`; `right` is the hand
position obtained from `ovr_GetTrackingState`; `inputOk` is the success
of `ovr_GetInputState` and `i` the returned snapshot. Returns the new
member state and the arguments of the `scene->render` call. -/
def renderScene (inv : Mat4 → Mat4) (st : AppState) (projection headPose : Mat4)
    (whichEye : ℤ) (right : Vec3) (inputOk : Bool) (i : InputState) :
    AppState × RenderCall :=
  let lbuf := if whichEye = 0 then recordPose st.lringBuffer headPose else st.lringBuffer
  let rbuf := if whichEye = 1 then recordPose st.rringBuffer headPose else st.rringBuffer
  let cbuf := recordPose st.cringBuffer right
  let ctrl := if inputOk = true then processInput inv headPose st.ctrl i else st.ctrl
  let lagFrame := headPose
  let lagFrame := if whichEye = 0 then retrieveLagged lbuf ctrl.lagNum else lagFrame
  let lagFrame := if whichEye = 1 then retrieveLagged rbuf ctrl.lagNum else lagFrame
  let laggedRight := retrieveLagged cbuf ctrl.lagNum
  let dly := delayStep st.delay ctrl.delayNum headPose whichEye
  let outputFrame := headPose
  let outputFrame := if ctrl.lagNum > 0 then lagFrame else outputFrame
  let outputFrame := if ctrl.delayNum > 0 then dly.renderFrame else outputFrame
  ({ lringBuffer := lbuf, rringBuffer := rbuf, cringBuffer := cbuf,
     a_pressed := st.a_pressed, a_hasPressed := st.a_hasPressed,
     ctrl := ctrl, delay := dly },
   { projection := projection, view := inv outputFrame, whichEye := whichEye,
     x_pressed := ctrl.x_pressed, cubeScale := ctrl.cubeScale,
     b_pressed := ctrl.b_pressed, rotation := ctrl.rotation,
     position := ctrl.position, right := laggedRight })

/-- The environment of one `ExampleApp::renderScene` invocation: the hand
position returned by `ovr_GetTrackingState` and the `ovr_GetInputState`
result for that invocation's own poll. -/
structure SceneEnv where
  right : Vec3
  inputOk : Bool
  input : InputState

/-- One entry of a sequence of `renderScene` invocations: the projection,
predicted pose, eye index and environment for that call. -/
structure FrameInput where
  proj : Mat4
  headPose : Mat4
  whichEye : ℤ
  sceneEnv : SceneEnv

/-- Run a sequence of `renderScene` invocations, collecting the
`scene->render` calls they issue. -/
def runScenes (inv : Mat4 → Mat4) : AppState → List FrameInput → AppState × List RenderCall
  | st, [] => (st, [])
  | st, fi :: fis =>
    let p := renderScene inv st fi.proj fi.headPose fi.whichEye
      fi.sceneEnv.right fi.sceneEnv.inputOk fi.sceneEnv.input
    let q := runScenes inv p.1 fis
    (q.1, p.2 :: q.2)

/-- The environment of one `RiftApp::draw` frame: per-eye projections and
predicted poses, draw's own `ovr_GetInputState` poll, and the environments
of the (up to two) nested `renderScene` invocations in order. -/
structure FrameEnv where
  proj0 : Mat4
  proj1 : Mat4
  eyePose0 : Mat4
  eyePose1 : Mat4
  drawInputOk : Bool
  drawInput : InputState
  env0 : SceneEnv
  env1 : SceneEnv

/-- The per-frame eye loop of `RiftApp::draw` (lines 652-703): on a
successful input poll, advance `a_pressed` on an A press edge, invoke
`renderScene` for the eyes selected by `a_pressed` (mode 3 swaps the eye
index passed down), and rearm the A edge detector. Returns the new state
and the `scene->render` calls issued this frame. -/
def drawFrame (inv : Mat4 → Mat4) (st : AppState) (env : FrameEnv) :
    AppState × List RenderCall :=
  if env.drawInputOk = true then
    let st := if env.drawInput.buttonA = true ∧ st.a_hasPressed = false then
        { st with a_pressed := (st.a_pressed + 1) % 4, a_hasPressed := true }
      else st
    let res :=
      if st.a_pressed = 0 then
        let p := renderScene inv st env.proj0 env.eyePose0 0
          env.env0.right env.env0.inputOk env.env0.input
        let q := renderScene inv p.1 env.proj1 env.eyePose1 1
          env.env1.right env.env1.inputOk env.env1.input
        (q.1, [p.2, q.2])
      else if st.a_pressed = 1 then
        let p := renderScene inv st env.proj0 env.eyePose0 0
          env.env0.right env.env0.inputOk env.env0.input
        (p.1, [p.2])
      else if st.a_pressed = 2 then
        let p := renderScene inv st env.proj1 env.eyePose1 1
          env.env0.right env.env0.inputOk env.env0.input
        (p.1, [p.2])
      else if st.a_pressed = 3 then
        let p := renderScene inv st env.proj0 env.eyePose0 1
          env.env0.right env.env0.inputOk env.env0.input
        let q := renderScene inv p.1 env.proj1 env.eyePose1 0
          env.env1.right env.env1.inputOk env.env1.input
        (q.1, [p.2, q.2])
      else (st, [])
    let fin := if env.drawInput.buttonA = false ∧ res.1.a_hasPressed = true then
        { res.1 with a_hasPressed := false }
      else res.1
    (fin, res.2)
  else (st, [])

/-- The `drawView` selection at the top of `Scene::render`
(lines 909-956): `prev` is the persistent `drawView` member, `view` the
incoming view matrix, `rot` / `pos` the captured rotation and position. -/
def resolveDrawView (prev view : Mat4) (b_pressed : ℤ) (rot : Mat3) (pos : Vec4) : Mat4 :=
  let dv := prev
  let dv := if b_pressed = 0 then view else dv
  let dv := if b_pressed = 2 then setCol3 view pos else dv
  let dv := if b_pressed = 1 then setCol3 (mat4OfMat3 rot) (col3 view) else dv
  if b_pressed = 3 then setCol3 (mat4OfMat3 rot) pos else dv

/-- The state after the `ExampleApp` constructor (lines 1017-1058): all
three ring buffers pre-filled with 60 identity entries, all counters and
edge flags zeroed. `iod`, `e0x`, `e1x` are the device-reported interocular
distance and per-eye x offsets set up in the `RiftApp` constructor. -/
def initState (iod e0x e1x : ℚ) : AppState :=
  { lringBuffer := List.replicate 60 mat4Id
    rringBuffer := List.replicate 60 mat4Id
    cringBuffer := List.replicate 60 vec3One
    a_pressed := 0
    a_hasPressed := false
    ctrl := { x_pressed := 0, x_hasPressed := false, cubeScale := 0,
              b_pressed := 0, b_hasPressed := false,
              rotation := mat3OfMat4 mat4Id, position := col3 mat4Id,
              iodOffset := 0, iod := iod,
              hmdToEyePose0x := e0x, hmdToEyePose1x := e1x,
              leftIndexP := false, rightIndexP := false,
              leftThumbP := false, rightThumbP := false,
              lagNum := 0, delayNum := 0 }
    delay := { ldelayRender := 0, rdelayRender := 0,
               leftCurFrame := mat4Id, rightCurFrame := mat4Id,
               renderFrame := mat4Id } }

/-- The triple of fields captured by a B press edge: `rotation`,
`position` and the view mode `b_pressed`. -/
def frozen (c : CtrlState) : Mat3 × Vec4 × ℤ := (c.rotation, c.position, c.b_pressed)

/-- The same triple as carried into a `scene->render` call. -/
def frozenRC (rc : RenderCall) : Mat3 × Vec4 × ℤ := (rc.rotation, rc.position, rc.b_pressed)

/-- The ranges the two latency counters are meant to stay in:
`lagNum` in `[0, 59]` and `delayNum` in `[0, 10]`. -/
def CounterInv (c : CtrlState) : Prop :=
  0 ≤ c.lagNum ∧ c.lagNum ≤ 59 ∧ 0 ≤ c.delayNum ∧ c.delayNum ≤ 10

/-- An all-zero input snapshot (no buttons, axes at rest). -/
def noInput : InputState :=
  { buttonA := false, buttonX := false, buttonB := false, buttonLThumb := false,
    buttonRThumb := false, thumbLX := 0, thumbRX := 0,
    indexTrigger0 := 0, indexTrigger1 := 0, handTrigger0 := 0, handTrigger1 := 0 }

/-- A representative device interocular distance (0.064 m). -/
def iod0 : ℚ := 8/125

/-- A freshly constructed `ExampleApp` state. -/
def st0 : AppState := initState iod0 (-(iod0 / 2)) (iod0 / 2)

/-- A constant matrix, used to build distinguishable test poses. -/
def constPose (q : ℚ) : Mat4 := fun _ _ => q

/-- A constant vector, used to build distinguishable test cursors. -/
def constVec (q : ℚ) : Vec3 := fun _ => q

/-- A family of 60 pairwise distinct poses, `pfam k = constPose k`. -/
def pfam : Fin 60 → Mat4 := fun k => constPose ((k : ℕ) : ℚ)

/-- An input pushing the right thumbstick x axis far beyond its physical
range, to exercise the accumulator. -/
def iodIn : InputState := { noInput with thumbRX := 100 }

/-- A control state with the tracking lag already at its maximum 59. -/
def ctrl59 : CtrlState := { st0.ctrl with lagNum := 59 }

/-- An input with only the right index trigger held (lag increment). -/
def lagIncIn : InputState := { noInput with indexTrigger1 := 1 }

/-- A control state at `lagNum = 59`, `delayNum = 10`, all edges armed. -/
def ctrlMax : CtrlState := { st0.ctrl with lagNum := 59, delayNum := 10 }

/-- An input with all four latency triggers held at once. -/
def allTrigIn : InputState :=
  { noInput with indexTrigger0 := 1, indexTrigger1 := 1, handTrigger0 := 1, handTrigger1 := 1 }

/-- A frame environment that renders both eyes (mode `a_pressed = 0`),
with distinguishable cursor positions for the two nested polls. -/
def envBoth : FrameEnv :=
  { proj0 := mat4Id, proj1 := mat4Id, eyePose0 := constPose 7, eyePose1 := constPose 8,
    drawInputOk := true, drawInput := noInput,
    env0 := { right := constVec 5, inputOk := false, input := noInput },
    env1 := { right := constVec 6, inputOk := false, input := noInput } }

/-- An app state with both lag (5 frames) and delay (3 frames) configured. -/
def stLD : AppState := { st0 with ctrl := { st0.ctrl with lagNum := 5, delayNum := 3 } }

/-- An app state with a render delay of 3 frames and fresh delay counters. -/
def stD : AppState := { st0 with ctrl := { st0.ctrl with delayNum := 3 } }

/-- An app state one B press away from the FullyFrozen mode. -/
def stB : AppState := { st0 with ctrl := { st0.ctrl with b_pressed := 2 } }

/-- An input with only the B button held. -/
def inB : InputState := { noInput with buttonB := true }

/-- A later frame with a fresh head pose and no B press. -/
def fiNoB : FrameInput :=
  { proj := mat4Id, headPose := constPose 21, whichEye := 0,
    sceneEnv := { right := vec3One, inputOk := true, input := noInput } }

/-- An eye-0 frame with head pose `constPose q` and no input poll. -/
def fiD (q : ℚ) : FrameInput :=
  { proj := mat4Id, headPose := constPose q, whichEye := 0,
    sceneEnv := { right := vec3One, inputOk := false, input := noInput } }

/-- The state right after the frame whose B press enters FullyFrozen. -/
def stBAfter : AppState := (renderScene id stB mat4Id (constPose 11) 0 vec3One true inB).1

/-- The `scene->render` call of the follow-up frame `fiNoB`. -/
def rcW : RenderCall :=
  (renderScene id stBAfter fiNoB.proj fiNoB.headPose fiNoB.whichEye
    fiNoB.sceneEnv.right fiNoB.sceneEnv.inputOk fiNoB.sceneEnv.input).2

lemma length_recordPose {α : Type} (buf : List α) (x : α) (h : buf.length = 60) :
    (recordPose buf x).length = 60 := by
  simp [recordPose]
  omega

lemma foldl_recordPose {α : Type} (ps : List α) : ∀ init : List α,
    ps.length ≤ init.length →
    List.foldl recordPose init ps = init.drop ps.length ++ ps := by
  induction ps with
  | nil => intro init _; simp
  | cons p ps ih =>
    intro init h
    simp only [List.length_cons] at h
    simp only [List.foldl_cons, List.length_cons]
    rw [ih (recordPose init p) (by simp [recordPose]; omega)]
    unfold recordPose
    rw [List.drop_append_of_le_length (by rw [List.length_tail]; omega),
      List.append_assoc, List.singleton_append, ← List.drop_one, List.drop_drop,
      Nat.add_comm ps.length 1]

lemma renderScene_fst_lring (inv : Mat4 → Mat4) (st : AppState) (proj hp : Mat4)
    (e : ℤ) (r : Vec3) (ok : Bool) (i : InputState) :
    ((renderScene inv st proj hp e r ok i).1).lringBuffer
      = if e = 0 then recordPose st.lringBuffer hp else st.lringBuffer := rfl

lemma renderScene_fst_rring (inv : Mat4 → Mat4) (st : AppState) (proj hp : Mat4)
    (e : ℤ) (r : Vec3) (ok : Bool) (i : InputState) :
    ((renderScene inv st proj hp e r ok i).1).rringBuffer
      = if e = 1 then recordPose st.rringBuffer hp else st.rringBuffer := rfl

lemma renderScene_fst_cring (inv : Mat4 → Mat4) (st : AppState) (proj hp : Mat4)
    (e : ℤ) (r : Vec3) (ok : Bool) (i : InputState) :
    ((renderScene inv st proj hp e r ok i).1).cringBuffer
      = recordPose st.cringBuffer r := rfl

lemma renderScene_fst_ctrl (inv : Mat4 → Mat4) (st : AppState) (proj hp : Mat4)
    (e : ℤ) (r : Vec3) (ok : Bool) (i : InputState) :
    ((renderScene inv st proj hp e r ok i).1).ctrl
      = if ok = true then processInput inv hp st.ctrl i else st.ctrl := rfl

lemma renderScene_fst_delay (inv : Mat4 → Mat4) (st : AppState) (proj hp : Mat4)
    (e : ℤ) (r : Vec3) (ok : Bool) (i : InputState) :
    ((renderScene inv st proj hp e r ok i).1).delay
      = delayStep st.delay
          ((renderScene inv st proj hp e r ok i).1).ctrl.delayNum hp e := rfl

/-- C1: for every lag `l` in `[0, 59]`, after exactly 60 `recordPose` calls
with known sequential poses on a capacity-60 buffer, `retrieveLagged`
(which reads the entry at offset `60 - l - 1`) returns the pose recorded
`l` frames ago: `l = 0` yields the most recent pose `p 59` and `l = 59`
the oldest, `p 0`. -/
theorem lag_retrieval_returns_pose_l_frames_ago (l : ℕ) (hl : l ≤ 59)
    (init : List Mat4) (hinit : init.length = 60) (p : Fin 60 → Mat4) :
    retrieveLagged (List.foldl recordPose init (List.ofFn p)) (l : ℤ)
      = p ⟨59 - l, by omega⟩ := by
  rw [foldl_recordPose _ _ (by simp [hinit])]
  rw [List.drop_eq_nil_of_le (by simp [hinit]), List.nil_append]
  unfold retrieveLagged
  have h1 : ((60 : ℤ) - (l : ℤ) - 1).toNat = 59 - l := by omega
  rw [h1, List.getD_eq_getElem?_getD, List.getElem?_eq_getElem (by simp; omega),
    Option.getD_some, List.getElem_ofFn]

/-- Witness for C1 at `l = 2` on the fresh identity-filled buffer and the
pose family `pfam`. -/
theorem lag_retrieval_returns_pose_l_frames_ago_witness :
    retrieveLagged (List.foldl recordPose (List.replicate 60 mat4Id) (List.ofFn pfam)) (2 : ℤ)
      = pfam ⟨57, by omega⟩ :=
  lag_retrieval_returns_pose_l_frames_ago 2 (by norm_num) _ (by simp) pfam

/-- C9: the two per-eye pose ring buffers and the shared cursor ring
buffer have length exactly 60 after construction, and still have length
exactly 60 after any sequence of `renderScene` invocations (each of which
performs paired pop and push operations through `recordPose`). -/
theorem ring_buffer_lengths_invariant (inv : Mat4 → Mat4) (iod e0x e1x : ℚ)
    (fis : List FrameInput) :
    (initState iod e0x e1x).lringBuffer.length = 60 ∧
    (initState iod e0x e1x).rringBuffer.length = 60 ∧
    (initState iod e0x e1x).cringBuffer.length = 60 ∧
    ((runScenes inv (initState iod e0x e1x) fis).1).lringBuffer.length = 60 ∧
    ((runScenes inv (initState iod e0x e1x) fis).1).rringBuffer.length = 60 ∧
    ((runScenes inv (initState iod e0x e1x) fis).1).cringBuffer.length = 60 := by
  have main : ∀ (fis : List FrameInput) (st : AppState),
      st.lringBuffer.length = 60 → st.rringBuffer.length = 60 →
      st.cringBuffer.length = 60 →
      ((runScenes inv st fis).1).lringBuffer.length = 60 ∧
      ((runScenes inv st fis).1).rringBuffer.length = 60 ∧
      ((runScenes inv st fis).1).cringBuffer.length = 60 := by
    intro fis
    induction fis with
    | nil => intro st h1 h2 h3; exact ⟨h1, h2, h3⟩
    | cons fi fis ih =>
      intro st h1 h2 h3
      have hl : (((renderScene inv st fi.proj fi.headPose fi.whichEye
          fi.sceneEnv.right fi.sceneEnv.inputOk fi.sceneEnv.input).1)).lringBuffer.length = 60 := by
        rw [renderScene_fst_lring]
        split
        · exact length_recordPose _ _ h1
        · exact h1
      have hr : (((renderScene inv st fi.proj fi.headPose fi.whichEye
          fi.sceneEnv.right fi.sceneEnv.inputOk fi.sceneEnv.input).1)).rringBuffer.length = 60 := by
        rw [renderScene_fst_rring]
        split
        · exact length_recordPose _ _ h2
        · exact h2
      have hc : (((renderScene inv st fi.proj fi.headPose fi.whichEye
          fi.sceneEnv.right fi.sceneEnv.inputOk fi.sceneEnv.input).1)).cringBuffer.length = 60 := by
        rw [renderScene_fst_cring]
        exact length_recordPose _ _ h3
      simpa only [runScenes] using ih _ hl hr hc
  refine ⟨by simp [initState], by simp [initState], by simp [initState], ?_, ?_, ?_⟩
  · exact (main fis _ (by simp [initState]) (by simp [initState]) (by simp [initState])).1
  · exact (main fis _ (by simp [initState]) (by simp [initState]) (by simp [initState])).2.1
  · exact (main fis _ (by simp [initState]) (by simp [initState]) (by simp [initState])).2.2

lemma renderScene_snd_view (inv : Mat4 → Mat4) (st : AppState) (proj hp : Mat4)
    (e : ℤ) (r : Vec3) (ok : Bool) (i : InputState) :
    (renderScene inv st proj hp e r ok i).2.view
      = inv (if ((renderScene inv st proj hp e r ok i).1).ctrl.delayNum > 0
             then ((renderScene inv st proj hp e r ok i).1).delay.renderFrame
             else if ((renderScene inv st proj hp e r ok i).1).ctrl.lagNum > 0
                  then (if e = 1
                        then retrieveLagged
                          ((renderScene inv st proj hp e r ok i).1).rringBuffer
                          ((renderScene inv st proj hp e r ok i).1).ctrl.lagNum
                        else if e = 0
                             then retrieveLagged
                               ((renderScene inv st proj hp e r ok i).1).lringBuffer
                               ((renderScene inv st proj hp e r ok i).1).ctrl.lagNum
                             else hp)
                  else hp) := rfl

/-- C10: the cursor position handed to `scene->render` is always the entry
of the (just-updated) cursor ring buffer read at the tracking-lag offset
`60 - lagNum - 1`; no render-delay branch ever substitutes it. -/
theorem cursor_always_lag_indexed (inv : Mat4 → Mat4) (st : AppState) (proj hp : Mat4)
    (e : ℤ) (r : Vec3) (ok : Bool) (i : InputState) :
    (renderScene inv st proj hp e r ok i).2.right
      = retrieveLagged ((renderScene inv st proj hp e r ok i).1).cringBuffer
          ((renderScene inv st proj hp e r ok i).1).ctrl.lagNum := rfl

/-- C2: whenever the post-input `delayNum` is nonzero, the view handed to
the scene is the inverse of the delay block's `renderFrame` — the
delay-frozen pose overrides whatever the lag path selected (the
`delayNum > 0` assignment to `outputFrame` comes after the `lagNum > 0`
one and overwrites it). -/
theorem delay_overrides_lag_for_output_pose (inv : Mat4 → Mat4) (st : AppState)
    (proj hp : Mat4) (e : ℤ) (r : Vec3) (ok : Bool) (i : InputState)
    (hd : 0 < ((renderScene inv st proj hp e r ok i).1).ctrl.delayNum) :
    (renderScene inv st proj hp e r ok i).2.view
      = inv (((renderScene inv st proj hp e r ok i).1).delay.renderFrame) := by
  rw [renderScene_snd_view, if_pos hd]

/-- Witness for C2: with lag 5 and delay 3 both configured, the rendered
view is the delay block's frame. -/
theorem delay_overrides_lag_for_output_pose_witness :
    0 < ((renderScene id stLD mat4Id (constPose 9) 0 vec3One false noInput).1).ctrl.delayNum ∧
    0 < ((renderScene id stLD mat4Id (constPose 9) 0 vec3One false noInput).1).ctrl.lagNum ∧
    (renderScene id stLD mat4Id (constPose 9) 0 vec3One false noInput).2.view
      = id (((renderScene id stLD mat4Id (constPose 9) 0 vec3One false noInput).1).delay.renderFrame) :=
  ⟨by decide, by decide,
   delay_overrides_lag_for_output_pose id stLD mat4Id (constPose 9) 0 vec3One false noInput
     (by decide)⟩

lemma frozen_setIOD (c : CtrlState) (o : ℚ) : frozen (setIOD c o) = frozen c := rfl

lemma frozen_clampDelayLow (c : CtrlState) : frozen (clampDelayLow c) = frozen c := by
  unfold clampDelayLow
  split <;> rfl

lemma frozen_clampDelayHigh (c : CtrlState) : frozen (clampDelayHigh c) = frozen c := by
  unfold clampDelayHigh
  split <;> rfl

lemma frozen_stepX (c : CtrlState) (i : InputState) : frozen (stepX c i) = frozen c := by
  unfold stepX
  split <;> rfl

lemma frozen_stepXRel (c : CtrlState) (i : InputState) : frozen (stepXRel c i) = frozen c := by
  unfold stepXRel
  split <;> rfl

lemma frozen_stepCubeScale (c : CtrlState) (i : InputState) :
    frozen (stepCubeScale c i) = frozen c := by
  unfold stepCubeScale
  split <;> rfl

lemma frozen_stepLThumb (c : CtrlState) (i : InputState) :
    frozen (stepLThumb c i) = frozen c := by
  unfold stepLThumb
  split <;> rfl

lemma frozen_stepBRel (c : CtrlState) (i : InputState) : frozen (stepBRel c i) = frozen c := by
  unfold stepBRel
  split <;> rfl

lemma frozen_stepIodOffset (c : CtrlState) (i : InputState) :
    frozen (stepIodOffset c i) = frozen c := by
  unfold stepIodOffset
  split <;> rfl

lemma frozen_stepIodReset (c : CtrlState) (i : InputState) :
    frozen (stepIodReset c i) = frozen c := by
  unfold stepIodReset
  split <;> rfl

lemma frozen_stepLagDec (c : CtrlState) (i : InputState) :
    frozen (stepLagDec c i) = frozen c := by
  unfold stepLagDec
  split
  · split <;> rfl
  · rfl

lemma frozen_stepLagDecRel (c : CtrlState) (i : InputState) :
    frozen (stepLagDecRel c i) = frozen c := by
  unfold stepLagDecRel
  split <;> rfl

lemma frozen_stepLagInc (c : CtrlState) (i : InputState) :
    frozen (stepLagInc c i) = frozen c := by
  unfold stepLagInc
  split
  · split <;> rfl
  · rfl

lemma frozen_stepLagIncRel (c : CtrlState) (i : InputState) :
    frozen (stepLagIncRel c i) = frozen c := by
  unfold stepLagIncRel
  split <;> rfl

lemma frozen_stepDelayDec (c : CtrlState) (i : InputState) :
    frozen (stepDelayDec c i) = frozen c := by
  unfold stepDelayDec
  split
  · rw [frozen_clampDelayLow]
    split <;> rfl
  · rfl

lemma frozen_stepDelayDecRel (c : CtrlState) (i : InputState) :
    frozen (stepDelayDecRel c i) = frozen c := by
  unfold stepDelayDecRel
  split <;> rfl

lemma frozen_stepDelayInc (c : CtrlState) (i : InputState) :
    frozen (stepDelayInc c i) = frozen c := by
  unfold stepDelayInc
  split
  · rw [frozen_clampDelayHigh]
    split <;> rfl
  · rfl

lemma frozen_stepDelayIncRel (c : CtrlState) (i : InputState) :
    frozen (stepDelayIncRel c i) = frozen c := by
  unfold stepDelayIncRel
  split <;> rfl

lemma bhp_stepX (c : CtrlState) (i : InputState) :
    (stepX c i).b_hasPressed = c.b_hasPressed := by
  unfold stepX
  split <;> rfl

lemma bhp_stepXRel (c : CtrlState) (i : InputState) :
    (stepXRel c i).b_hasPressed = c.b_hasPressed := by
  unfold stepXRel
  split <;> rfl

lemma bhp_stepCubeScale (c : CtrlState) (i : InputState) :
    (stepCubeScale c i).b_hasPressed = c.b_hasPressed := by
  unfold stepCubeScale
  split <;> rfl

lemma bhp_stepLThumb (c : CtrlState) (i : InputState) :
    (stepLThumb c i).b_hasPressed = c.b_hasPressed := by
  unfold stepLThumb
  split <;> rfl

lemma bp_stepX (c : CtrlState) (i : InputState) : (stepX c i).b_pressed = c.b_pressed := by
  unfold stepX
  split <;> rfl

lemma bp_stepXRel (c : CtrlState) (i : InputState) :
    (stepXRel c i).b_pressed = c.b_pressed := by
  unfold stepXRel
  split <;> rfl

lemma bp_stepCubeScale (c : CtrlState) (i : InputState) :
    (stepCubeScale c i).b_pressed = c.b_pressed := by
  unfold stepCubeScale
  split <;> rfl

lemma bp_stepLThumb (c : CtrlState) (i : InputState) :
    (stepLThumb c i).b_pressed = c.b_pressed := by
  unfold stepLThumb
  split <;> rfl

lemma stepB_noEdge (inv : Mat4 → Mat4) (hp : Mat4) (c : CtrlState) (i : InputState)
    (h : i.buttonB = false) : stepB inv hp c i = c := by
  unfold stepB
  rw [if_neg (by simp [h])]

lemma stepB_edge (inv : Mat4 → Mat4) (hp : Mat4) (c : CtrlState) (i : InputState)
    (hB : i.buttonB = true) (hP : c.b_hasPressed = false) :
    stepB inv hp c i
      = { c with b_pressed := (c.b_pressed + 1) % 4,
                 rotation := mat3OfMat4 (inv hp),
                 position := col3 (inv hp),
                 b_hasPressed := true } := by
  unfold stepB
  rw [if_pos ⟨hB, hP⟩]

lemma frozen_processInput_noB (inv : Mat4 → Mat4) (hp : Mat4) (c : CtrlState)
    (i : InputState) (hB : i.buttonB = false) :
    frozen (processInput inv hp c i) = frozen c := by
  simp only [processInput, frozen_stepDelayIncRel, frozen_stepDelayInc,
    frozen_stepDelayDecRel, frozen_stepDelayDec, frozen_stepLagIncRel, frozen_stepLagInc,
    frozen_stepLagDecRel, frozen_stepLagDec, frozen_stepIodReset, frozen_stepIodOffset,
    frozen_stepBRel, stepB_noEdge inv hp _ i hB, frozen_stepLThumb, frozen_stepCubeScale,
    frozen_stepXRel, frozen_stepX]

lemma frozen_processInput_edge (inv : Mat4 → Mat4) (hp : Mat4) (c : CtrlState)
    (i : InputState) (hB : i.buttonB = true) (hP : c.b_hasPressed = false) :
    frozen (processInput inv hp c i)
      = (mat3OfMat4 (inv hp), col3 (inv hp), (c.b_pressed + 1) % 4) := by
  have h4 : (stepLThumb (stepCubeScale (stepXRel (stepX c i) i) i) i).b_hasPressed = false := by
    rw [bhp_stepLThumb, bhp_stepCubeScale, bhp_stepXRel, bhp_stepX]
    exact hP
  have hbp : (stepLThumb (stepCubeScale (stepXRel (stepX c i) i) i) i).b_pressed
      = c.b_pressed := by
    rw [bp_stepLThumb, bp_stepCubeScale, bp_stepXRel, bp_stepX]
  simp only [processInput, frozen_stepDelayIncRel, frozen_stepDelayInc,
    frozen_stepDelayDecRel, frozen_stepDelayDec, frozen_stepLagIncRel, frozen_stepLagInc,
    frozen_stepLagDecRel, frozen_stepLagDec, frozen_stepIodReset, frozen_stepIodOffset,
    frozen_stepBRel, stepB_edge inv hp _ i hB h4]
  unfold frozen
  rw [hbp]

lemma frozenRC_renderScene (inv : Mat4 → Mat4) (st : AppState) (proj hp : Mat4)
    (e : ℤ) (r : Vec3) (ok : Bool) (i : InputState) :
    frozenRC (renderScene inv st proj hp e r ok i).2
      = frozen ((renderScene inv st proj hp e r ok i).1).ctrl := rfl

lemma frozen_renderScene_noB (inv : Mat4 → Mat4) (st : AppState) (proj hp : Mat4)
    (e : ℤ) (r : Vec3) (ok : Bool) (i : InputState)
    (hi : ok = true → i.buttonB = false) :
    frozen ((renderScene inv st proj hp e r ok i).1).ctrl = frozen st.ctrl := by
  by_cases hok : ok = true
  · rw [renderScene_fst_ctrl, if_pos hok]
    exact frozen_processInput_noB inv hp st.ctrl i (hi hok)
  · rw [renderScene_fst_ctrl, if_neg hok]

lemma frozen_runScenes_noB (inv : Mat4 → Mat4) : ∀ (fis : List FrameInput) (st : AppState),
    (∀ g ∈ fis, g.sceneEnv.inputOk = true → g.sceneEnv.input.buttonB = false) →
    frozen ((runScenes inv st fis).1).ctrl = frozen st.ctrl ∧
      ∀ rc ∈ (runScenes inv st fis).2, frozenRC rc = frozen st.ctrl := by
  intro fis
  induction fis with
  | nil =>
    intro st _
    refine ⟨rfl, ?_⟩
    intro rc h
    simp [runScenes] at h
  | cons fi fis ih =>
    intro st hNoB
    have h1 : frozen ((renderScene inv st fi.proj fi.headPose fi.whichEye
        fi.sceneEnv.right fi.sceneEnv.inputOk fi.sceneEnv.input).1).ctrl = frozen st.ctrl :=
      frozen_renderScene_noB inv st fi.proj fi.headPose fi.whichEye
        fi.sceneEnv.right fi.sceneEnv.inputOk fi.sceneEnv.input (hNoB fi (by simp))
    obtain ⟨ha, hb⟩ := ih ((renderScene inv st fi.proj fi.headPose fi.whichEye
        fi.sceneEnv.right fi.sceneEnv.inputOk fi.sceneEnv.input).1)
      (fun g hg => hNoB g (by simp [hg]))
    constructor
    · simpa only [runScenes] using ha.trans h1
    · intro rc hrc
      simp only [runScenes, List.mem_cons] at hrc
      rcases hrc with hrc | hrc
      · subst hrc
        rw [frozenRC_renderScene]
        exact h1
      · exact (hb rc hrc).trans h1

lemma resolveDrawView_b3 (prev v : Mat4) (rot : Mat3) (pos : Vec4) :
    resolveDrawView prev v 3 rot pos = setCol3 (mat4OfMat3 rot) pos := by
  unfold resolveDrawView
  norm_num

/-- C7: a B press edge that enters FullyFrozen (`b_pressed` becomes 3)
captures `rotation = mat3(inverse(headPose))` and
`position = inverse(headPose)[3]`; over any further frames without a B
press those captured values persist unchanged, every `scene->render` call
carries them, and the `drawView` resolved by `Scene::render` is exactly
the captured rotation with the captured translation column — independent
of the live head poses of those frames. -/
theorem fully_frozen_captures_persist (inv : Mat4 → Mat4) (st : AppState)
    (proj hp : Mat4) (e : ℤ) (r : Vec3) (i : InputState) (fis : List FrameInput)
    (prev : Mat4)
    (hB : i.buttonB = true) (hP : st.ctrl.b_hasPressed = false)
    (hEnter : (st.ctrl.b_pressed + 1) % 4 = 3)
    (hNoB : ∀ g ∈ fis, g.sceneEnv.inputOk = true → g.sceneEnv.input.buttonB = false) :
    frozen ((renderScene inv st proj hp e r true i).1).ctrl
        = (mat3OfMat4 (inv hp), col3 (inv hp), 3) ∧
    frozen ((runScenes inv ((renderScene inv st proj hp e r true i).1) fis).1).ctrl
        = (mat3OfMat4 (inv hp), col3 (inv hp), 3) ∧
    ∀ rc ∈ (runScenes inv ((renderScene inv st proj hp e r true i).1) fis).2,
      frozenRC rc = (mat3OfMat4 (inv hp), col3 (inv hp), 3) ∧
      resolveDrawView prev rc.view rc.b_pressed rc.rotation rc.position
        = setCol3 (mat4OfMat3 (mat3OfMat4 (inv hp))) (col3 (inv hp)) := by
  have hcap : frozen ((renderScene inv st proj hp e r true i).1).ctrl
      = (mat3OfMat4 (inv hp), col3 (inv hp), 3) := by
    rw [renderScene_fst_ctrl, if_pos rfl, frozen_processInput_edge inv hp st.ctrl i hB hP,
      hEnter]
  obtain ⟨hrun, hcalls⟩ := frozen_runScenes_noB inv fis
    ((renderScene inv st proj hp e r true i).1) hNoB
  refine ⟨hcap, hrun.trans hcap, ?_⟩
  intro rc hrc
  have hfr : frozenRC rc = (mat3OfMat4 (inv hp), col3 (inv hp), 3) :=
    (hcalls rc hrc).trans hcap
  refine ⟨hfr, ?_⟩
  have hrot : rc.rotation = mat3OfMat4 (inv hp) := congrArg Prod.fst hfr
  have hpos : rc.position = col3 (inv hp) := congrArg (Prod.fst ∘ Prod.snd) hfr
  have hbp : rc.b_pressed = 3 := congrArg (Prod.snd ∘ Prod.snd) hfr
  rw [hrot, hpos, hbp, resolveDrawView_b3]

/-- Witness for C7: from `b_pressed = 2`, a B press with head pose
`constPose 11` enters FullyFrozen; the follow-up frame `fiNoB` (new pose,
no B press) still carries the captured rotation and position, and its
resolved `drawView` is the captured transform. -/
theorem fully_frozen_captures_persist_witness :
    frozen stBAfter.ctrl = (mat3OfMat4 (id (constPose 11)), col3 (id (constPose 11)), 3) ∧
    frozenRC rcW = (mat3OfMat4 (id (constPose 11)), col3 (id (constPose 11)), 3) ∧
    resolveDrawView mat4Id rcW.view rcW.b_pressed rcW.rotation rcW.position
      = setCol3 (mat4OfMat3 (mat3OfMat4 (id (constPose 11)))) (col3 (id (constPose 11))) := by
  obtain ⟨h1, _, h3⟩ := fully_frozen_captures_persist id stB mat4Id (constPose 11) 0 vec3One
    inB [fiNoB] mat4Id rfl rfl (by decide)
    (by
      intro g hg
      rw [List.mem_singleton] at hg
      subst hg
      intro _
      rfl)
  have hm := h3 rcW (List.mem_singleton.mpr rfl)
  exact ⟨h1, hm.1, hm.2⟩

lemma counterInv_stepX (c : CtrlState) (i : InputState) (h : CounterInv c) :
    CounterInv (stepX c i) := by
  unfold stepX
  split <;> exact h

lemma counterInv_stepXRel (c : CtrlState) (i : InputState) (h : CounterInv c) :
    CounterInv (stepXRel c i) := by
  unfold stepXRel
  split <;> exact h

lemma counterInv_stepCubeScale (c : CtrlState) (i : InputState) (h : CounterInv c) :
    CounterInv (stepCubeScale c i) := by
  unfold stepCubeScale
  split <;> exact h

lemma counterInv_stepLThumb (c : CtrlState) (i : InputState) (h : CounterInv c) :
    CounterInv (stepLThumb c i) := by
  unfold stepLThumb
  split <;> exact h

lemma counterInv_stepB (inv : Mat4 → Mat4) (hp : Mat4) (c : CtrlState) (i : InputState)
    (h : CounterInv c) : CounterInv (stepB inv hp c i) := by
  unfold stepB
  split <;> exact h

lemma counterInv_stepBRel (c : CtrlState) (i : InputState) (h : CounterInv c) :
    CounterInv (stepBRel c i) := by
  unfold stepBRel
  split <;> exact h

lemma counterInv_stepIodOffset (c : CtrlState) (i : InputState) (h : CounterInv c) :
    CounterInv (stepIodOffset c i) := by
  unfold stepIodOffset
  split <;> exact h

lemma counterInv_stepIodReset (c : CtrlState) (i : InputState) (h : CounterInv c) :
    CounterInv (stepIodReset c i) := by
  unfold stepIodReset
  split <;> exact h

lemma counterInv_stepLagDec (c : CtrlState) (i : InputState) (h : CounterInv c) :
    CounterInv (stepLagDec c i) := by
  obtain ⟨h1, h2, h3, h4⟩ := h
  unfold stepLagDec
  split
  · split
    · refine ⟨?_, ?_, h3, h4⟩
      · exact Int.emod_nonneg _ (by norm_num)
      · show (c.lagNum - 1) % 60 ≤ 59
        have h60 := Int.emod_lt_of_pos (c.lagNum - 1) (show (0:ℤ) < 60 by norm_num)
        omega
    · exact ⟨h1, h2, h3, h4⟩
  · exact ⟨h1, h2, h3, h4⟩

lemma counterInv_stepLagDecRel (c : CtrlState) (i : InputState) (h : CounterInv c) :
    CounterInv (stepLagDecRel c i) := by
  unfold stepLagDecRel
  split <;> exact h

lemma counterInv_stepLagInc (c : CtrlState) (i : InputState) (h : CounterInv c) :
    CounterInv (stepLagInc c i) := by
  obtain ⟨h1, h2, h3, h4⟩ := h
  unfold stepLagInc
  split
  · split
    · refine ⟨?_, ?_, h3, h4⟩
      · exact Int.emod_nonneg _ (by norm_num)
      · show (c.lagNum + 1) % 60 ≤ 59
        have h60 := Int.emod_lt_of_pos (c.lagNum + 1) (show (0:ℤ) < 60 by norm_num)
        omega
    · exact ⟨h1, h2, h3, h4⟩
  · exact ⟨h1, h2, h3, h4⟩

lemma counterInv_stepLagIncRel (c : CtrlState) (i : InputState) (h : CounterInv c) :
    CounterInv (stepLagIncRel c i) := by
  unfold stepLagIncRel
  split <;> exact h

lemma counterInv_stepDelayDec (c : CtrlState) (i : InputState) (h : CounterInv c) :
    CounterInv (stepDelayDec c i) := by
  obtain ⟨h1, h2, h3, h4⟩ := h
  unfold stepDelayDec
  split
  · by_cases hP : c.leftThumbP = false ∧ c.delayNum > 0
    · rw [if_pos hP]
      unfold clampDelayLow
      split
      · exact ⟨h1, h2, show (0:ℤ) ≤ 0 by norm_num, show (0:ℤ) ≤ 10 by norm_num⟩
      · refine ⟨h1, h2, ?_, ?_⟩
        · show 0 ≤ c.delayNum - 1
          omega
        · show c.delayNum - 1 ≤ 10
          omega
    · rw [if_neg hP]
      unfold clampDelayLow
      split
      · exact ⟨h1, h2, show (0:ℤ) ≤ 0 by norm_num, show (0:ℤ) ≤ 10 by norm_num⟩
      · exact ⟨h1, h2, h3, h4⟩
  · exact ⟨h1, h2, h3, h4⟩

lemma counterInv_stepDelayDecRel (c : CtrlState) (i : InputState) (h : CounterInv c) :
    CounterInv (stepDelayDecRel c i) := by
  unfold stepDelayDecRel
  split <;> exact h

lemma counterInv_stepDelayInc (c : CtrlState) (i : InputState) (h : CounterInv c) :
    CounterInv (stepDelayInc c i) := by
  obtain ⟨h1, h2, h3, h4⟩ := h
  unfold stepDelayInc
  split
  · by_cases hP : c.rightThumbP = false
    · rw [if_pos hP]
      unfold clampDelayHigh
      split
      · exact ⟨h1, h2, show (0:ℤ) ≤ 10 by norm_num, show (10:ℤ) ≤ 10 by norm_num⟩
      · next hno =>
        refine ⟨h1, h2, ?_, ?_⟩
        · show 0 ≤ c.delayNum + 1
          omega
        · show c.delayNum + 1 ≤ 10
          have hlt : ¬ ((c.delayNum + 1 : ℤ) ≥ 10) := hno
          omega
    · rw [if_neg hP]
      unfold clampDelayHigh
      split
      · exact ⟨h1, h2, show (0:ℤ) ≤ 10 by norm_num, show (10:ℤ) ≤ 10 by norm_num⟩
      · exact ⟨h1, h2, h3, h4⟩
  · exact ⟨h1, h2, h3, h4⟩

lemma counterInv_stepDelayIncRel (c : CtrlState) (i : InputState) (h : CounterInv c) :
    CounterInv (stepDelayIncRel c i) := by
  unfold stepDelayIncRel
  split <;> exact h

lemma counterInv_processInput (inv : Mat4 → Mat4) (hp : Mat4) (c : CtrlState)
    (i : InputState) (h : CounterInv c) : CounterInv (processInput inv hp c i) := by
  unfold processInput
  exact counterInv_stepDelayIncRel _ _ (counterInv_stepDelayInc _ _
    (counterInv_stepDelayDecRel _ _ (counterInv_stepDelayDec _ _
    (counterInv_stepLagIncRel _ _ (counterInv_stepLagInc _ _
    (counterInv_stepLagDecRel _ _ (counterInv_stepLagDec _ _
    (counterInv_stepIodReset _ _ (counterInv_stepIodOffset _ _
    (counterInv_stepBRel _ _ (counterInv_stepB inv hp _ _
    (counterInv_stepLThumb _ _ (counterInv_stepCubeScale _ _
    (counterInv_stepXRel _ _ (counterInv_stepX _ _ h)))))))))))))))

lemma counterInv_renderScene (inv : Mat4 → Mat4) (st : AppState) (proj hp : Mat4)
    (e : ℤ) (r : Vec3) (ok : Bool) (i : InputState) (h : CounterInv st.ctrl) :
    CounterInv ((renderScene inv st proj hp e r ok i).1).ctrl := by
  rw [renderScene_fst_ctrl]
  split
  · exact counterInv_processInput inv hp st.ctrl i h
  · exact h

lemma counterInv_runScenes (inv : Mat4 → Mat4) : ∀ (fis : List FrameInput) (st : AppState),
    CounterInv st.ctrl → CounterInv ((runScenes inv st fis).1).ctrl := by
  intro fis
  induction fis with
  | nil => intro st h; exact h
  | cons fi fis ih =>
    intro st h
    simpa only [runScenes] using ih _ (counterInv_renderScene inv st fi.proj fi.headPose
      fi.whichEye fi.sceneEnv.right fi.sceneEnv.inputOk fi.sceneEnv.input h)

/-- C8: starting from the constructed state, after any sequence of
`renderScene` invocations (hence any sequence of increment/decrement
trigger edges, in any interleaving), `lagNum` is in `[0, 59]` and
`delayNum` is in `[0, 10]`. -/
theorem lag_delay_counters_stay_in_range (inv : Mat4 → Mat4) (iod e0x e1x : ℚ)
    (fis : List FrameInput) :
    0 ≤ ((runScenes inv (initState iod e0x e1x) fis).1).ctrl.lagNum ∧
    ((runScenes inv (initState iod e0x e1x) fis).1).ctrl.lagNum ≤ 59 ∧
    0 ≤ ((runScenes inv (initState iod e0x e1x) fis).1).ctrl.delayNum ∧
    ((runScenes inv (initState iod e0x e1x) fis).1).ctrl.delayNum ≤ 10 :=
  counterInv_runScenes inv fis (initState iod e0x e1x)
    ⟨le_refl 0, show (0:ℤ) ≤ 59 by norm_num, le_refl 0, show (0:ℤ) ≤ 10 by norm_num⟩

/-- Counterexample to C3: one frame of accumulation with a large right
thumbstick value drives the stored accumulator `iodOffset` to 1, outside
the configured range `[-0.1, 0.3]` — the accumulator itself is not
clamped at the accumulation site. -/
theorem iod_accumulator_escapes_range :
    (stepIodOffset st0.ctrl iodIn).iodOffset = 1 ∧
    ¬ ((stepIodOffset st0.ctrl iodIn).iodOffset ≤ 3/10) := by
  constructor
  · norm_num [stepIodOffset, setIOD, st0, initState, iodIn, noInput]
  · norm_num [stepIodOffset, setIOD, st0, initState, iodIn, noInput]

/-- C3 as amended: the accumulator `iodOffset` only accumulates (it is
not clamped), while `setIOD` — called at the same accumulation site —
clamps the applied interocular distance `iod + iodOffset` to
`[-0.1, 0.3]` before writing the per-eye pose x offsets, so the applied
eye separation always lies in that range no matter how large the
per-frame delta is. -/
theorem applied_iod_clamped_accumulator_unclamped (c : CtrlState) (i : InputState)
    (h : i.thumbRX ≠ 0) :
    (stepIodOffset c i).iodOffset = c.iodOffset + i.thumbRX / 100 ∧
    -(1/10) ≤ (stepIodOffset c i).hmdToEyePose1x - (stepIodOffset c i).hmdToEyePose0x ∧
    (stepIodOffset c i).hmdToEyePose1x - (stepIodOffset c i).hmdToEyePose0x ≤ 3/10 := by
  unfold stepIodOffset setIOD
  rw [if_pos h]
  refine ⟨rfl, ?_, ?_⟩ <;> dsimp only <;> split_ifs <;> linarith

/-- Witness for the amended C3 at the concrete overdriven input. -/
theorem applied_iod_clamped_accumulator_unclamped_witness :
    (stepIodOffset st0.ctrl iodIn).iodOffset = st0.ctrl.iodOffset + iodIn.thumbRX / 100 ∧
    -(1/10) ≤ (stepIodOffset st0.ctrl iodIn).hmdToEyePose1x
      - (stepIodOffset st0.ctrl iodIn).hmdToEyePose0x ∧
    (stepIodOffset st0.ctrl iodIn).hmdToEyePose1x
      - (stepIodOffset st0.ctrl iodIn).hmdToEyePose0x ≤ 3/10 :=
  applied_iod_clamped_accumulator_unclamped st0.ctrl iodIn (by norm_num [iodIn, noInput])

/-- Counterexample to C5: an increment edge received at the maximum
`lagNum = 59` wraps the counter to 0 via `(lagNum + 1) % 60` — it does
not saturate at 59. -/
theorem lag_increment_wraps_at_59 :
    (processInput id mat4Id ctrl59 lagIncIn).lagNum = 0 ∧
    ¬ ((processInput id mat4Id ctrl59 lagIncIn).lagNum = 59) := by
  have h : (processInput id mat4Id ctrl59 lagIncIn).lagNum = 0 := by
    norm_num [processInput, stepX, stepXRel, stepCubeScale, stepLThumb, stepB, stepBRel,
      stepIodOffset, stepIodReset, setIOD, stepLagDec, stepLagDecRel, stepLagInc,
      stepLagIncRel, stepDelayDec, stepDelayDecRel, stepDelayInc, stepDelayIncRel,
      clampDelayLow, clampDelayHigh, ctrl59, st0, initState, lagIncIn, noInput]
  exact ⟨h, by rw [h]; norm_num⟩

/-- C5 as amended: each armed trigger edge updates its counter by one,
but the two counters are bounded differently: `lagNum` is updated modulo
60 (so an increment at 59 wraps to 0 rather than saturating, and a
decrement only fires when `lagNum > 0`), while `delayNum` saturates (an
increment yields `min (delayNum + 1) 10`, a decrement at a positive value
yields `delayNum - 1`, and the `> 0` guard keeps it from going below 0). -/
theorem trigger_edges_update_counters (c : CtrlState) (i : InputState) :
    (i.indexTrigger1 > 1/2 → c.rightIndexP = false →
      (stepLagInc c i).lagNum = (c.lagNum + 1) % 60) ∧
    (i.indexTrigger0 > 1/2 → c.leftIndexP = false → 0 < c.lagNum →
      (stepLagDec c i).lagNum = (c.lagNum - 1) % 60) ∧
    (i.indexTrigger0 > 1/2 → c.lagNum ≤ 0 →
      (stepLagDec c i).lagNum = c.lagNum) ∧
    (i.handTrigger1 > 1/2 → c.rightThumbP = false →
      (stepDelayInc c i).delayNum = min (c.delayNum + 1) 10) ∧
    (i.handTrigger0 > 1/2 → c.leftThumbP = false → 0 < c.delayNum →
      (stepDelayDec c i).delayNum = c.delayNum - 1) := by
  refine ⟨?_, ?_, ?_, ?_, ?_⟩
  · intro h1 h2
    unfold stepLagInc
    rw [if_pos h1, if_pos h2]
  · intro h1 h2 h3
    unfold stepLagDec
    rw [if_pos h1, if_pos ⟨h2, h3⟩]
  · intro h1 h2
    unfold stepLagDec
    rw [if_pos h1, if_neg (by intro hx; omega)]
  · intro h1 h2
    unfold stepDelayInc
    rw [if_pos h1, if_pos h2]
    unfold clampDelayHigh
    split
    · next hge =>
      have hge2 : c.delayNum + 1 ≥ 10 := hge
      show (10:ℤ) = min (c.delayNum + 1) 10
      omega
    · next hlt =>
      have hlt2 : ¬ (c.delayNum + 1 ≥ 10) := hlt
      show c.delayNum + 1 = min (c.delayNum + 1) 10
      omega
  · intro h1 h2 h3
    unfold stepDelayDec
    rw [if_pos h1, if_pos ⟨h2, h3⟩]
    unfold clampDelayLow
    split
    · next hlt =>
      have hlt2 : c.delayNum - 1 < 0 := hlt
      show (0:ℤ) = c.delayNum - 1
      omega
    · rfl

/-- Witness for the amended C5 at `lagNum = 59`, `delayNum = 10` with all
four triggers pulled: the lag increment wraps to `(59 + 1) % 60 = 0`, the
delay increment saturates at 10. -/
theorem trigger_edges_update_counters_witness :
    (stepLagInc ctrlMax allTrigIn).lagNum = (59 + 1) % 60 ∧
    (stepLagDec ctrlMax allTrigIn).lagNum = (59 - 1) % 60 ∧
    (stepDelayInc ctrlMax allTrigIn).delayNum = min (10 + 1) 10 ∧
    (stepDelayDec ctrlMax allTrigIn).delayNum = 10 - 1 := by
  obtain ⟨ha, hb, _, hc, hd⟩ := trigger_edges_update_counters ctrlMax allTrigIn
  refine ⟨?_, ?_, ?_, ?_⟩
  · exact ha (by norm_num [allTrigIn, noInput]) rfl
  · exact hb (by norm_num [allTrigIn, noInput]) rfl (by norm_num [ctrlMax])
  · exact hc (by norm_num [allTrigIn, noInput]) rfl
  · exact hd (by norm_num [allTrigIn, noInput]) rfl (by norm_num [ctrlMax])

lemma renderScene_noPoll_ctrl (inv : Mat4 → Mat4) (st : AppState) (proj hp : Mat4)
    (e : ℤ) (r : Vec3) (i : InputState) :
    ((renderScene inv st proj hp e r false i).1).ctrl = st.ctrl := by
  rw [renderScene_fst_ctrl]
  simp

lemma renderScene_noPoll_delay (inv : Mat4 → Mat4) (st : AppState) (proj hp : Mat4)
    (e : ℤ) (r : Vec3) (i : InputState) :
    ((renderScene inv st proj hp e r false i).1).delay
      = delayStep st.delay st.ctrl.delayNum hp e := by
  rw [renderScene_fst_delay, renderScene_noPoll_ctrl]

lemma renderScene_view_of_delay (inv : Mat4 → Mat4) (st : AppState) (proj hp : Mat4)
    (e : ℤ) (r : Vec3) (ok : Bool) (i : InputState)
    (hd : 0 < ((renderScene inv st proj hp e r ok i).1).ctrl.delayNum) :
    (renderScene inv st proj hp e r ok i).2.view
      = inv (((renderScene inv st proj hp e r ok i).1).delay.renderFrame) := by
  rw [renderScene_snd_view, if_pos hd]

lemma delayStep3_fresh (d : DelayState) (p : Mat4)
    (hl : d.ldelayRender = 0) (hr : d.rdelayRender = 0) :
    delayStep d 3 p 0 = ⟨1, 0, p, d.rightCurFrame, p⟩ := by
  unfold delayStep
  norm_num [hl, hr]

lemma delayStep3_one (lc rc rf p : Mat4) :
    delayStep ⟨1, 0, lc, rc, rf⟩ 3 p 0 = ⟨2, 0, lc, rc, lc⟩ := by
  unfold delayStep
  norm_num

lemma delayStep3_two (lc rc rf p : Mat4) :
    delayStep ⟨2, 0, lc, rc, rf⟩ 3 p 0 = ⟨0, 0, lc, rc, lc⟩ := by
  unfold delayStep
  norm_num

lemma delayStep3_zero (lc rc rf p : Mat4) :
    delayStep ⟨0, 0, lc, rc, rf⟩ 3 p 0 = ⟨1, 0, p, rc, p⟩ := by
  unfold delayStep
  norm_num

/-- C6: with `delayNum = 3` and fresh delay counters, four consecutive
eye-0 frames with head poses `p1, p2, p3, p4` render the views
`inv p1, inv p1, inv p1, inv p4`: the captured pose is frozen for 3
consecutive frames (the capture frame plus two), then recaptured from the
then-current head pose on the 4th frame. -/
theorem render_delay_three_freezes_three_frames (inv : Mat4 → Mat4) (st : AppState)
    (proj p1 p2 p3 p4 : Mat4) (r1 r2 r3 r4 : Vec3) (i1 i2 i3 i4 : InputState)
    (hld : st.delay.ldelayRender = 0) (hrd : st.delay.rdelayRender = 0)
    (hdn : st.ctrl.delayNum = 3) :
    ((runScenes inv st
        [{ proj := proj, headPose := p1, whichEye := 0,
           sceneEnv := { right := r1, inputOk := false, input := i1 } },
         { proj := proj, headPose := p2, whichEye := 0,
           sceneEnv := { right := r2, inputOk := false, input := i2 } },
         { proj := proj, headPose := p3, whichEye := 0,
           sceneEnv := { right := r3, inputOk := false, input := i3 } },
         { proj := proj, headPose := p4, whichEye := 0,
           sceneEnv := { right := r4, inputOk := false, input := i4 } }]).2).map
      RenderCall.view
      = [inv p1, inv p1, inv p1, inv p4] := by
  have hv : ∀ (s : AppState) (pp : Mat4) (rr : Vec3) (ii : InputState),
      s.ctrl.delayNum = 3 →
      ((renderScene inv s proj pp 0 rr false ii).1).ctrl.delayNum = 3 ∧
      ((renderScene inv s proj pp 0 rr false ii).1).delay = delayStep s.delay 3 pp 0 ∧
      (renderScene inv s proj pp 0 rr false ii).2.view
        = inv ((delayStep s.delay 3 pp 0).renderFrame) := by
    intro s pp rr ii h3
    have hc : ((renderScene inv s proj pp 0 rr false ii).1).ctrl = s.ctrl :=
      renderScene_noPoll_ctrl inv s proj pp 0 rr ii
    have hd : ((renderScene inv s proj pp 0 rr false ii).1).delay
        = delayStep s.delay 3 pp 0 := by
      rw [renderScene_noPoll_delay, h3]
    refine ⟨by rw [hc, h3], hd, ?_⟩
    rw [renderScene_view_of_delay inv s proj pp 0 rr false ii (by rw [hc, h3]; norm_num), hd]
  obtain ⟨hc1, hd1, hv1⟩ := hv st p1 r1 i1 hdn
  obtain ⟨hc2, hd2, hv2⟩ := hv _ p2 r2 i2 hc1
  obtain ⟨hc3, hd3, hv3⟩ := hv _ p3 r3 i3 hc2
  obtain ⟨_, hd4, hv4⟩ := hv _ p4 r4 i4 hc3
  simp only [runScenes, List.map_cons, List.map_nil]
  rw [hv1, hv2, hv3, hv4, hd3, hd2, hd1, delayStep3_fresh st.delay p1 hld hrd,
    delayStep3_one, delayStep3_two, delayStep3_zero]

/-- Witness for C6: delay 3 on the fresh state, poses 1..4. -/
theorem render_delay_three_freezes_three_frames_witness :
    ((runScenes id stD [fiD 1, fiD 2, fiD 3, fiD 4]).2).map RenderCall.view
      = [id (constPose 1), id (constPose 1), id (constPose 1), id (constPose 4)] :=
  render_delay_three_freezes_three_frames id stD mat4Id (constPose 1) (constPose 2)
    (constPose 3) (constPose 4) vec3One vec3One vec3One vec3One
    noInput noInput noInput noInput rfl rfl rfl

lemma tail_append_tail {α : Type} (buf : List α) (x y : α) (h : 2 ≤ buf.length) :
    (buf.tail ++ [x]).tail ++ [y] = buf.drop 2 ++ [x, y] := by
  match buf with
  | [] => simp at h
  | [a] => simp at h
  | a :: b :: rest => simp

/-- Counterexample to C4: in a both-eye frame (`a_pressed = 0`) the
shared cursor ring buffer receives two push/pop updates — one per
`renderScene` invocation, i.e. one per eye — not one per frame: after one
`drawFrame` from the fresh state the buffer ends with the two polled
cursor positions, not with a single one. -/
theorem cursor_recorded_twice_in_both_eye_frame :
    (drawFrame id st0 envBoth).1.cringBuffer
        = List.replicate 58 vec3One ++ [constVec 5, constVec 6] ∧
    ¬ ((drawFrame id st0 envBoth).1.cringBuffer
        = List.replicate 59 vec3One ++ [constVec 5]) := by
  constructor
  · decide
  · decide

/-- C4 as amended: the cursor history receives exactly one push/pop pair
per `renderScene` invocation (the update sits inside `renderScene`, which
runs once per rendered eye), so per frame it is updated once per issued
`scene->render` call: twice in both-eye modes, once in single-eye modes,
never more. -/
theorem cursor_updates_once_per_render_call (inv : Mat4 → Mat4) (st : AppState)
    (env : FrameEnv) (h : st.cringBuffer.length = 60) :
    (drawFrame inv st env).1.cringBuffer
      = st.cringBuffer.drop ((drawFrame inv st env).2.length)
        ++ List.take ((drawFrame inv st env).2.length)
            [env.env0.right, env.env1.right] := by
  have h2 : 2 ≤ st.cringBuffer.length := by omega
  unfold drawFrame
  dsimp only
  split_ifs <;>
    simp [renderScene_fst_cring, recordPose, tail_append_tail st.cringBuffer _ _ h2]

/-- Witness for the amended C4 on the fresh state and a both-eye frame. -/
theorem cursor_updates_once_per_render_call_witness :
    (drawFrame id st0 envBoth).1.cringBuffer
      = st0.cringBuffer.drop ((drawFrame id st0 envBoth).2.length)
        ++ List.take ((drawFrame id st0 envBoth).2.length)
            [envBoth.env0.right, envBoth.env1.right] :=
  cursor_updates_once_per_render_call id st0 envBoth (by simp [st0, initState])

end HW2
